import Mathlib

/-
  Verification of the stock_fundamentals frontend.

  Shallow embedding of:
  - the API client `getStockAnalysis` (frontend/src/api/stockApi.ts), and
  - the Analysis View submit handler and rendering
    (frontend/src/components/StockAnalysis.tsx),
  together with a small-step system semantics that drives submit and
  resolution events, used to reason about reachable view states.

  JavaScript runtime behaviour relied on by the source (String.trim,
  String.toUpperCase on ASCII tickers, JSON parsing outcomes of
  response.json, truthiness, property access, String coercion inside the
  Error constructor) is embedded explicitly below; each definition notes
  the semantics it models.
-/

namespace StockFundamentals

/-- JSON values, the fragment relevant to the frontend. Numeric literals are
modelled as integers; the claims under study only exercise string, object
and absent fields. -/
inductive Json where
  | null
  | bool (b : Bool)
  | num (n : Int)
  | str (s : String)
  | arr (elems : List Json)
  | obj (fields : List (String × Json))

/-- JS truthiness of a JSON value: null, false, 0 and the empty string are
falsy; every object and array is truthy. -/
def jsTruthy : Json → Bool
  | Json.null => false
  | Json.bool b => b
  | Json.num n => n != 0
  | Json.str s => s != ""
  | Json.arr _ => true
  | Json.obj _ => true

mutual

/-- String coercion of one array element inside Array.prototype.join:
null elements coerce to the empty string, others as by String(). -/
def jsElemString : Json → String
  | Json.null => ""
  | Json.bool b => if b then "true" else "false"
  | Json.num n => toString n
  | Json.str s => s
  | Json.arr es => jsArrJoin es
  | Json.obj _ => "[object Object]"

/-- Array.prototype.toString: elements coerced and joined with commas. -/
def jsArrJoin : List Json → String
  | [] => ""
  | e :: es =>
    match es with
    | [] => jsElemString e
    | _ :: _ => jsElemString e ++ "," ++ jsArrJoin es

end

/-- JS String() coercion of a JSON value, as applied by the Error
constructor to its argument. -/
def jsToString : Json → String
  | Json.null => "null"
  | Json.bool b => if b then "true" else "false"
  | Json.num n => toString n
  | Json.str s => s
  | Json.arr es => jsArrJoin es
  | Json.obj _ => "[object Object]"

/-- Code points treated as whitespace by String.prototype.trim
(WhiteSpace and LineTerminator productions). -/
def jsWhitespaceCodes : List Nat :=
  [9, 10, 11, 12, 13, 32, 160, 0x1680,
   0x2000, 0x2001, 0x2002, 0x2003, 0x2004, 0x2005, 0x2006, 0x2007,
   0x2008, 0x2009, 0x200A, 0x2028, 0x2029, 0x202F, 0x205F, 0x3000, 0xFEFF]

/-- Whether a character is JS whitespace. -/
def jsWhitespaceChar (c : Char) : Bool :=
  jsWhitespaceCodes.contains c.toNat

/-- String.prototype.trim: strip leading and trailing JS whitespace. -/
def jsTrim (s : String) : String :=
  String.mk (((s.data.dropWhile jsWhitespaceChar).reverse.dropWhile
      jsWhitespaceChar).reverse)

/-- String.prototype.toUpperCase on one character, ASCII fragment (ticker
symbols are ASCII; non-letters, including whitespace, are unchanged). -/
def jsUpperChar (c : Char) : Char :=
  if 97 ≤ c.toNat ∧ c.toNat ≤ 122 then Char.ofNat (c.toNat - 32) else c

/-- String.prototype.toUpperCase, ASCII fragment. -/
def jsToUpper (s : String) : String :=
  String.mk (s.data.map jsUpperChar)

/-- A JS exception value as observed by the catch in handleSubmit: its
message and whether it is an instance of Error. Every value thrown by the
code under study (Error, SyntaxError from JSON parsing, TypeError from
fetch or from property access on null) is an Error instance. -/
structure JsError where
  message : String
  isErrorInstance : Bool
deriving Repr, DecidableEq

/-- Field lookup in a parsed JSON object; JSON.parse keeps the last
binding of a duplicated key. -/
def objGet (fields : List (String × Json)) (k : String) : Option Json :=
  fields.foldl (fun acc kv => if kv.fst = k then some kv.snd else acc) none

/-- JS property access v.detail on a parsed JSON value: throws a TypeError
when the value is null, otherwise yields the field value, or undefined
(modelled as none) when absent or when the value is not an object.
JSON.parse never yields undefined, so null is the only throwing case. -/
def jsMember : Json → String → Except JsError (Option Json)
  | Json.null, _ => Except.error ⟨"Cannot read properties of null", true⟩
  | Json.obj fields, k => Except.ok (objGet fields k)
  | _, _ => Except.ok none

/-- An HTTP response as seen through the fetch API: the ok flag (status in
the 2xx range) and the outcome of response.json() — the parsed value, or
the message of the SyntaxError with which parsing rejects. -/
structure HttpResponse where
  ok : Bool
  bodyParse : Except String Json

/-- Outcome of the fetch call: a transport-level rejection (TypeError,
always an Error instance) carrying its message, or an HTTP response. -/
inductive FetchOutcome where
  | networkFailure (message : String)
  | response (r : HttpResponse)

/-- The fixed backend origin, stockApi.ts line 6. -/
def API_BASE_URL : String := "http://localhost:8000"

/-- Path component of the request URL for a (already uppercased) ticker. -/
def requestPath (t : String) : String :=
  "/api/stock/" ++ t

/-- URL of the request issued for a (already uppercased) ticker:
the template in stockApi.ts line 14. -/
def requestUrl (t : String) : String :=
  API_BASE_URL ++ requestPath t

/-- Generic fallback message of the API client, stockApi.ts line 18. -/
def fallbackMessage : String := "Failed to fetch stock data"

/-- Message of the Error thrown for a non-ok response once the error body
parsed: the detail field when truthy, coerced to string by the Error
constructor, else the generic fallback (stockApi.ts line 18,
errorData.detail with a truthiness-based or-else). -/
def detailMessage (d : Option Json) : String :=
  match d with
  | some v => if jsTruthy v then jsToString v else fallbackMessage
  | none => fallbackMessage

/-- The API client getStockAnalysis (stockApi.ts lines 12-26) applied to a
fetch outcome. The catch block only logs and rethrows, so the function is
the identity on thrown errors. For a non-ok response the error body is
parsed (an unparseable body makes response.json() reject with a
SyntaxError, which propagates); for an ok response the body is parsed and
returned as-is. -/
def getStockAnalysis (out : FetchOutcome) : Except JsError Json :=
  match out with
  | FetchOutcome.networkFailure m => Except.error ⟨m, true⟩
  | FetchOutcome.response r =>
    if r.ok then
      match r.bodyParse with
      | Except.ok j => Except.ok j
      | Except.error m => Except.error ⟨m, true⟩
    else
      match r.bodyParse with
      | Except.error m => Except.error ⟨m, true⟩
      | Except.ok j =>
        match jsMember j ("detail") with
        | Except.error e => Except.error e
        | Except.ok d => Except.error ⟨detailMessage d, true⟩

/-- The view state owned by StockAnalysis.tsx: the four useState hooks
ticker, loading, error and stockData (lines 5-8). -/
structure ViewState where
  ticker : String
  loading : Bool
  error : Option String
  stockData : Option Json

/-- The local validation message, StockAnalysis.tsx line 14. -/
def validationMessage : String := "Please enter a stock ticker symbol"

/-- The first phase of handleSubmit (StockAnalysis.tsx lines 10-21), up to
the point where the awaited request is outstanding: the emptiness check on
the trimmed ticker, and otherwise setLoading(true), setError(null) and the
fetch of the uppercased (untrimmed) ticker. Returns the new state and the
URL of the request issued, if any. -/
def submitStart (s : ViewState) : ViewState × Option String :=
  if jsTrim s.ticker = "" then
    ({ s with error := some validationMessage }, none)
  else
    ({ s with loading := true, error := none },
     some (requestUrl (jsToUpper s.ticker)))

/-- The message displayed for a caught exception, StockAnalysis.tsx
line 24: err.message when err is an Error instance, else the fallback. -/
def displayedMessage (e : JsError) : String :=
  if e.isErrorInstance then e.message else fallbackMessage

/-- The second phase of handleSubmit (StockAnalysis.tsx lines 21-28): the
awaited call resolves. On success setStockData(data); on a caught error
setError(message) and setStockData(null); in both cases the finally block
runs setLoading(false). -/
def resolveRequest (s : ViewState) (out : FetchOutcome) : ViewState :=
  match getStockAnalysis out with
  | Except.ok data => { s with stockData := some data, loading := false }
  | Except.error e =>
    { s with error := some (displayedMessage e),
             stockData := none, loading := false }

/-- A whole submit under a given fetch outcome: the start phase, then —
only when a request was actually issued — its resolution. Also returns the
list of requests issued (their URLs). -/
def fullSubmit (s : ViewState) (out : FetchOutcome) :
    ViewState × List String :=
  match submitStart s with
  | (s1, none) => (s1, [])
  | (s1, some req) => (resolveRequest s1 out, [req])

/-- What the JSX of StockAnalysis.tsx renders from a view state: the
submit button (disabled={loading}, label per line 74), the error banner
(guarded by the truthiness of error, line 80), and the result panels
(guarded by the truthiness of stockData, line 97). -/
structure RenderedView where
  submitDisabled : Bool
  submitLabel : String
  errorBannerShown : Bool
  errorBannerText : String
  resultPanelsShown : Bool
deriving Repr, DecidableEq

/-- The rendering function of the component. -/
def renderView (s : ViewState) : RenderedView :=
  { submitDisabled := s.loading
  , submitLabel := if s.loading then "Analyzing..." else "Analyze"
  , errorBannerShown :=
      match s.error with
      | some m => m != ""
      | none => false
  , errorBannerText :=
      match s.error with
      | some m => m
      | none => ""
  , resultPanelsShown :=
      match s.stockData with
      | some j => jsTruthy j
      | none => false }

/-- Whole-system state: the view plus the number of requests in flight. -/
structure Sys where
  view : ViewState
  inFlight : Nat

/-- Initial state: all four hooks at their initial values (lines 5-8),
no request in flight. -/
def initSys : Sys :=
  ⟨⟨"", false, none, none⟩, 0⟩

/-- Small-step semantics of the component. Typing edits the ticker at any
time (the input is never disabled). A submit event can only be delivered
while the submit control is enabled (disabled={loading}); it runs the
first phase of handleSubmit and puts a request in flight when one is
issued. A resolution event can only occur while a request is in flight. -/
inductive Step : Sys → Sys → Prop where
  | setTicker (s : Sys) (t : String) :
      Step s ⟨{ s.view with ticker := t }, s.inFlight⟩
  | submit (s : Sys) :
      (renderView s.view).submitDisabled = false →
      Step s ⟨(submitStart s.view).1,
              s.inFlight +
                (if (submitStart s.view).2.isSome then 1 else 0)⟩
  | resolve (s : Sys) (out : FetchOutcome) :
      1 ≤ s.inFlight →
      Step s ⟨resolveRequest s.view out, s.inFlight - 1⟩

/-- Reachability from the initial state. -/
def ReachableSys (s : Sys) : Prop :=
  Relation.ReflTransGen Step initSys s

/-- Inductive invariant of the system: the in-flight count mirrors the
loading flag; while loading the error is cleared; and whenever the error
holds anything other than the local validation message, the result payload
is cleared. -/
def SysInv (s : Sys) : Prop :=
  s.inFlight = (if s.view.loading then 1 else 0) ∧
  (s.view.loading = true → s.view.error = none) ∧
  (∀ m, s.view.error = some m → m ≠ validationMessage →
    s.view.stockData = none)

/-- A sample successful analysis payload (the shape read by the result
panels). -/
def sampleJson : Json :=
  Json.obj
    [(("company_info"),
      Json.obj [(("company_name"), Json.str ("Apple Inc."))]),
     (("financial_highlights"), Json.str ("Revenue grew")),
     (("financial_ratios"), Json.obj [])]

/-- The invariant holds initially. -/
theorem sysInv_init : SysInv initSys := by
  refine ⟨rfl, fun h => ?_, fun m hm _ => ?_⟩
  · simp [initSys] at h
  · simp [initSys] at hm

/-- The invariant is preserved by every step. -/
theorem sysInv_step {s s2 : Sys} (hinv : SysInv s) (hstep : Step s s2) :
    SysInv s2 := by
  obtain ⟨h1, h2, h3⟩ := hinv
  cases hstep with
  | setTicker t =>
    exact ⟨h1, h2, h3⟩
  | submit hdis =>
    have hload : s.view.loading = false := hdis
    by_cases he : jsTrim s.view.ticker = ""
    · refine ⟨?_, fun hl => ?_, fun m hm hne => ?_⟩
      · simp [submitStart, he, hload, h1]
      · simp [submitStart, he, hload] at hl
      · simp [submitStart, he] at hm
        exact absurd hm.symm hne
    · refine ⟨?_, fun _ => ?_, fun m hm _ => ?_⟩
      · rw [h1]
        simp [submitStart, he, hload]
      · simp [submitStart, he]
      · simp [submitStart, he] at hm
  | resolve out hfl =>
    have hload : s.view.loading = true := by
      by_contra hc
      rw [Bool.not_eq_true] at hc
      rw [hc] at h1
      simp at h1
      omega
    have herr : s.view.error = none := h2 hload
    cases hga : getStockAnalysis out with
    | ok data =>
      refine ⟨?_, fun hl => ?_, fun m hm _ => ?_⟩
      · simp [resolveRequest, hga, hload, h1]
      · simp [resolveRequest, hga] at hl
      · simp [resolveRequest, hga, herr] at hm
    | error e =>
      refine ⟨?_, fun hl => ?_, fun m _ _ => ?_⟩
      · simp [resolveRequest, hga, hload, h1]
      · simp [resolveRequest, hga] at hl
      · simp [resolveRequest, hga]

/-- Every reachable system state satisfies the invariant. -/
theorem sysInv_reachable (s : Sys) (h : ReachableSys s) : SysInv s := by
  induction h with
  | refl => exact sysInv_init
  | tail _ hstep ih => exact sysInv_step ih hstep

/-- C4 (confirmed): submitting an empty or whitespace-only ticker (empty
after JS trim) issues no request and only sets the error to exactly
"Please enter a stock ticker symbol"; loading and the held result are
untouched. -/
theorem c4_empty_ticker (s : ViewState) (h : jsTrim s.ticker = "") :
    (submitStart s).2 = none ∧
    (submitStart s).1 = { s with error := some validationMessage } := by
  simp [submitStart, h]

/-- C4 witness: the whitespace-only ticker of three spaces. -/
theorem c4_empty_ticker_witness :
    (submitStart ⟨"   ", false, none, none⟩).2 = none ∧
    (submitStart ⟨"   ", false, none, none⟩).1 =
      { (⟨"   ", false, none, none⟩ : ViewState) with
          error := some validationMessage } :=
  c4_empty_ticker ⟨"   ", false, none, none⟩ (by decide)

/-- C1 counterexample: for the submitted ticker of " aapl" (leading
space), whose trimmed form "aapl" is non-empty, a request is issued and
the view enters Loading, but the request URL holds the uppercased
UNtrimmed ticker " AAPL": its path differs from
/api/stock/{upper(trim(t))} = /api/stock/AAPL, refuting the claim that
the ticker is trimmed before being placed in the request path. -/
theorem c1_counterexample :
    (submitStart ⟨" aapl", false, none, none⟩).1.loading = true ∧
    (submitStart ⟨" aapl", false, none, none⟩).2 =
      some (requestUrl (" AAPL")) ∧
    requestUrl (" AAPL") ≠ requestUrl (jsToUpper (jsTrim (" aapl"))) := by
  refine ⟨rfl, rfl, ?_⟩
  decide

/-- C1 (amended): for every submitted ticker whose trimmed form is
non-empty, the handler transitions to Loading (loading set, error
cleared) and issues exactly one GET request, whose URL path is
/api/stock/{upper(t)} — the ticker is uppercased but NOT trimmed before
being placed in the request path. -/
theorem c1_amended (s : ViewState) (h : jsTrim s.ticker ≠ "") :
    (submitStart s).1.loading = true ∧
    (submitStart s).1.error = none ∧
    (submitStart s).2 =
      some (API_BASE_URL ++ requestPath (jsToUpper s.ticker)) := by
  simp [submitStart, h, requestUrl]

/-- C1 witness: the ticker "aapl" yields one request with path
/api/stock/AAPL. -/
theorem c1_amended_witness :
    (submitStart ⟨"aapl", false, none, none⟩).1.loading = true ∧
    (submitStart ⟨"aapl", false, none, none⟩).1.error = none ∧
    (submitStart ⟨"aapl", false, none, none⟩).2 =
      some (API_BASE_URL ++ requestPath (jsToUpper ("aapl"))) :=
  c1_amended ⟨"aapl", false, none, none⟩ (by decide)

/-- C2 counterexample: a reachable state in which the error message is
set (the error banner is rendered) AND the result payload is set (the
result panels are rendered): submit "aapl", let it succeed, edit the
ticker to a single space and submit again. The local validation path sets
the error without clearing the held result, so Failure and Success are
active simultaneously and the Failure view does show result panels,
refuting the exactly-one-of-four invariant. -/
theorem c2_counterexample :
    ReachableSys ⟨⟨" ", false, some validationMessage, some sampleJson⟩, 0⟩ ∧
    (renderView ⟨" ", false, some validationMessage,
        some sampleJson⟩).errorBannerShown = true ∧
    (renderView ⟨" ", false, some validationMessage,
        some sampleJson⟩).resultPanelsShown = true := by
  refine ⟨?_, rfl, rfl⟩
  have r0 : ReachableSys initSys := Relation.ReflTransGen.refl
  have s1 : Step initSys ⟨⟨"aapl", false, none, none⟩, 0⟩ :=
    Step.setTicker initSys ("aapl")
  have s2 : Step ⟨⟨"aapl", false, none, none⟩, 0⟩
      ⟨⟨"aapl", true, none, none⟩, 1⟩ :=
    Step.submit ⟨⟨"aapl", false, none, none⟩, 0⟩ rfl
  have s3 : Step ⟨⟨"aapl", true, none, none⟩, 1⟩
      ⟨⟨"aapl", false, none, some sampleJson⟩, 0⟩ :=
    Step.resolve ⟨⟨"aapl", true, none, none⟩, 1⟩
      (FetchOutcome.response ⟨true, Except.ok sampleJson⟩) (by decide)
  have s4 : Step ⟨⟨"aapl", false, none, some sampleJson⟩, 0⟩
      ⟨⟨" ", false, none, some sampleJson⟩, 0⟩ :=
    Step.setTicker ⟨⟨"aapl", false, none, some sampleJson⟩, 0⟩ (" ")
  have s5 : Step ⟨⟨" ", false, none, some sampleJson⟩, 0⟩
      ⟨⟨" ", false, some validationMessage, some sampleJson⟩, 0⟩ :=
    Step.submit ⟨⟨" ", false, none, some sampleJson⟩, 0⟩ rfl
  exact ((((r0.tail s1).tail s2).tail s3).tail s4).tail s5

/-- C2 (amended): the exactly-one-of-four decomposition fails — a held
result survives a local validation failure (and stays rendered), so error
and result can be set and shown simultaneously. What does hold at every
reachable state: whenever the error holds anything other than the fixed
local validation message (i.e. the Failure was produced by a failing
request), the result payload is cleared and no result panels are shown. -/
theorem c2_amended (s : Sys) (h : ReachableSys s) (m : String)
    (hm : s.view.error = some m) (hne : m ≠ validationMessage) :
    s.view.stockData = none ∧
    (renderView s.view).resultPanelsShown = false := by
  have hinv := sysInv_reachable s h
  have hsd := hinv.2.2 m hm hne
  exact ⟨hsd, by simp [renderView, hsd]⟩

/-- C2 witness: the reachable state after submit "aapl" resolves with a
network failure carrying message "boom" holds no result and renders no
result panels. -/
theorem c2_amended_witness :
    (⟨⟨"aapl", false, some ("boom"), none⟩, 0⟩ : Sys).view.stockData
      = none ∧
    (renderView (⟨⟨"aapl", false, some ("boom"), none⟩,
        0⟩ : Sys).view).resultPanelsShown = false := by
  refine c2_amended ⟨⟨"aapl", false, some ("boom"), none⟩, 0⟩ ?_
    ("boom") rfl (by decide)
  have r0 : ReachableSys initSys := Relation.ReflTransGen.refl
  have s1 : Step initSys ⟨⟨"aapl", false, none, none⟩, 0⟩ :=
    Step.setTicker initSys ("aapl")
  have s2 : Step ⟨⟨"aapl", false, none, none⟩, 0⟩
      ⟨⟨"aapl", true, none, none⟩, 1⟩ :=
    Step.submit ⟨⟨"aapl", false, none, none⟩, 0⟩ rfl
  have s3 : Step ⟨⟨"aapl", true, none, none⟩, 1⟩
      ⟨⟨"aapl", false, some ("boom"), none⟩, 0⟩ :=
    Step.resolve ⟨⟨"aapl", true, none, none⟩, 1⟩
      (FetchOutcome.networkFailure ("boom")) (by decide)
  exact ((r0.tail s1).tail s2).tail s3

/-- C3 counterexample: a failing response whose body cannot be parsed
makes response.json() reject with a SyntaxError; handleSubmit displays
that SyntaxError's own message ("Unexpected end of JSON input" for an
empty body), not the fixed string "Failed to fetch stock data", refuting
the claim. -/
theorem c3_counterexample :
    (resolveRequest ⟨"AAPL", true, none, none⟩
        (FetchOutcome.response
          ⟨false, Except.error ("Unexpected end of JSON input")⟩)).error
      = some ("Unexpected end of JSON input") ∧
    ("Unexpected end of JSON input") ≠ fallbackMessage := by
  exact ⟨rfl, by decide⟩

/-- C3 (amended): for every failing HTTP response whose body cannot be
parsed, the displayed error message is the parse error's own message (the
rejection of response.json() propagates, and it is an Error instance), not
the generic fallback. -/
theorem c3_amended (s : ViewState) (m : String) (hl : s.loading = true) :
    (resolveRequest s
        (FetchOutcome.response ⟨false, Except.error m⟩)).error = some m := by
  simp [resolveRequest, getStockAnalysis, displayedMessage]

/-- C3 witness: a loading view hit by an unparseable error body displays
the parse error message. -/
theorem c3_amended_witness :
    (resolveRequest ⟨"AAPL", true, none, none⟩
        (FetchOutcome.response
          ⟨false, Except.error ("Unexpected end of JSON input")⟩)).error
      = some ("Unexpected end of JSON input") :=
  c3_amended ⟨"AAPL", true, none, none⟩ ("Unexpected end of JSON input") rfl

/-- C5 counterexample: the detail field is tested for JS truthiness, not
presence — a failing response whose body is the object with detail set to
the empty string displays the generic fallback "Failed to fetch stock
data", not the (empty) detail string, refuting the claim for that body. -/
theorem c5_counterexample :
    (resolveRequest ⟨"AAPL", true, none, none⟩
        (FetchOutcome.response
          ⟨false, Except.ok (Json.obj [(("detail"),
            Json.str (""))])⟩)).error = some fallbackMessage ∧
    fallbackMessage ≠ ("") := by
  exact ⟨rfl, by decide⟩

/-- C5 (amended): for every failing HTTP response whose JSON body is an
object containing a NON-EMPTY string field detail, the displayed error
message is exactly that detail string. -/
theorem c5_amended (s : ViewState) (fields : List (String × Json))
    (d : String) (hl : s.loading = true)
    (hd : objGet fields ("detail") = some (Json.str d)) (hne : d ≠ "") :
    (resolveRequest s
        (FetchOutcome.response
          ⟨false, Except.ok (Json.obj fields)⟩)).error = some d := by
  have hga : getStockAnalysis
      (FetchOutcome.response ⟨false, Except.ok (Json.obj fields)⟩)
      = Except.error ⟨d, true⟩ := by
    simp [getStockAnalysis, jsMember, hd, detailMessage, jsTruthy,
      jsToString, hne]
  simp [resolveRequest, hga, displayedMessage]

/-- C5 witness: the spec's example — status 404 with body containing
detail "Ticker not found" displays exactly "Ticker not found". -/
theorem c5_amended_witness :
    (resolveRequest ⟨"AAPL", true, none, none⟩
        (FetchOutcome.response
          ⟨false, Except.ok (Json.obj [(("detail"),
            Json.str ("Ticker not found"))])⟩)).error
      = some ("Ticker not found") :=
  c5_amended ⟨"AAPL", true, none, none⟩
    [(("detail"), Json.str ("Ticker not found"))]
    ("Ticker not found") rfl rfl (by decide)

/-- C6 (confirmed): when the in-flight request resolves with any failure
while the view is loading, the view moves to Failure: the error is set to
the failure's displayed message, the result payload is cleared, the
loading flag is cleared, and nothing else (the ticker text) changes. -/
theorem c6_failure_resolution (s : ViewState) (out : FetchOutcome)
    (e : JsError) (hl : s.loading = true)
    (he : getStockAnalysis out = Except.error e) :
    resolveRequest s out =
      ⟨s.ticker, false, some (displayedMessage e), none⟩ := by
  simp [resolveRequest, he]

/-- C6 witness: a loading view hit by a network failure with message
"Failed to fetch". -/
theorem c6_failure_resolution_witness :
    resolveRequest ⟨"AAPL", true, none, some sampleJson⟩
        (FetchOutcome.networkFailure ("Failed to fetch")) =
      ⟨"AAPL", false,
        some (displayedMessage ⟨"Failed to fetch", true⟩), none⟩ :=
  c6_failure_resolution ⟨"AAPL", true, none, some sampleJson⟩
    (FetchOutcome.networkFailure ("Failed to fetch"))
    ⟨"Failed to fetch", true⟩ rfl rfl

/-- C7 (confirmed): a full submit of a valid ticker whose request resolves
with an ok response and a parseable body ends in Success: the result is
exactly the parsed body (no validation or transformation), the error is
cleared, and the loading flag is cleared. -/
theorem c7_success_resolution (s : ViewState) (r : HttpResponse) (j : Json)
    (hv : jsTrim s.ticker ≠ "") (hok : r.ok = true)
    (hp : r.bodyParse = Except.ok j) :
    resolveRequest (submitStart s).1 (FetchOutcome.response r) =
      ⟨s.ticker, false, none, some j⟩ := by
  have hga : getStockAnalysis (FetchOutcome.response r) = Except.ok j := by
    simp [getStockAnalysis, hok, hp]
  simp [submitStart, hv, resolveRequest, hga]

/-- C7 witness: submitting "aapl" and receiving the sample payload stores
exactly that payload with no error. -/
theorem c7_success_resolution_witness :
    resolveRequest (submitStart ⟨"aapl", false, some ("old"), none⟩).1
        (FetchOutcome.response ⟨true, Except.ok sampleJson⟩) =
      ⟨"aapl", false, none, some sampleJson⟩ :=
  c7_success_resolution ⟨"aapl", false, some ("old"), none⟩
    ⟨true, Except.ok sampleJson⟩ sampleJson (by decide) rfl rfl

/-- C8 (confirmed): in every reachable state the rendered submit control's
disabled attribute equals the loading flag — in particular it is disabled
throughout Loading — and, since a submit event is only delivered while the
control is enabled, at most one request is ever in flight. -/
theorem c8_loading_disables_submit (s : Sys) (h : ReachableSys s) :
    (renderView s.view).submitDisabled = s.view.loading ∧
    (s.view.loading = true → (renderView s.view).submitDisabled = true) ∧
    s.inFlight ≤ 1 := by
  have hinv := sysInv_reachable s h
  refine ⟨rfl, fun hl => by simp [renderView, hl], ?_⟩
  rw [hinv.1]
  split <;> omega

/-- C8 witness: the initial state. -/
theorem c8_loading_disables_submit_witness :
    (renderView initSys.view).submitDisabled = initSys.view.loading ∧
    (initSys.view.loading = true →
      (renderView initSys.view).submitDisabled = true) ∧
    initSys.inFlight ≤ 1 :=
  c8_loading_disables_submit initSys Relation.ReflTransGen.refl

/-- Shape of a whole submit of a valid ticker: exactly one request is
issued, to the uppercased ticker's URL, and the final state is a function
of the fetch outcome alone (with the ticker text carried through). -/
theorem fullSubmit_shape (s : ViewState) (out : FetchOutcome)
    (h : jsTrim s.ticker ≠ "") :
    (fullSubmit s out).2 = [requestUrl (jsToUpper s.ticker)] ∧
    (fullSubmit s out).1 =
      (match getStockAnalysis out with
       | Except.ok j => ⟨s.ticker, false, none, some j⟩
       | Except.error e =>
         ⟨s.ticker, false, some (displayedMessage e), none⟩) := by
  unfold fullSubmit submitStart
  rw [if_neg h]
  unfold resolveRequest
  cases hga : getStockAnalysis out <;> simp [hga]

/-- C9 (confirmed): submitting the same valid ticker twice in sequence
(the second submit after the first request resolves) issues one request
per submit, both to the same URL, and the final view state is determined
by the second outcome alone — swapping the first outcome leaves the final
state unchanged. -/
theorem c9_sequential_submits (s : ViewState)
    (o1 o1' o2 : FetchOutcome) (h : jsTrim s.ticker ≠ "") :
    (fullSubmit s o1).2 = [requestUrl (jsToUpper s.ticker)] ∧
    (fullSubmit (fullSubmit s o1).1 o2).2 =
      [requestUrl (jsToUpper s.ticker)] ∧
    (fullSubmit (fullSubmit s o1).1 o2).1 =
      (fullSubmit (fullSubmit s o1').1 o2).1 := by
  have t1 := fullSubmit_shape s o1 h
  have t1' := fullSubmit_shape s o1' h
  have ht : (fullSubmit s o1).1.ticker = s.ticker := by
    rw [t1.2]
    cases getStockAnalysis o1 <;> rfl
  have ht' : (fullSubmit s o1').1.ticker = s.ticker := by
    rw [t1'.2]
    cases getStockAnalysis o1' <;> rfl
  have h2 : jsTrim (fullSubmit s o1).1.ticker ≠ "" := by
    rw [ht]; exact h
  have h2' : jsTrim (fullSubmit s o1').1.ticker ≠ "" := by
    rw [ht']; exact h
  have t2 := fullSubmit_shape (fullSubmit s o1).1 o2 h2
  have t2' := fullSubmit_shape (fullSubmit s o1').1 o2 h2'
  refine ⟨t1.1, ?_, ?_⟩
  · rw [t2.1, ht]
  · rw [t2.2, t2'.2, ht, ht']

/-- C9 witness: submitting "aapl" twice, first resolving with a network
failure and then with the sample payload, ends in the sample payload with
no error; swapping the first outcome for a success changes nothing. -/
theorem c9_sequential_submits_witness :
    (fullSubmit ⟨"aapl", false, none, none⟩
        (FetchOutcome.networkFailure ("boom"))).2 =
      [requestUrl (jsToUpper ("aapl"))] ∧
    (fullSubmit (fullSubmit ⟨"aapl", false, none, none⟩
        (FetchOutcome.networkFailure ("boom"))).1
        (FetchOutcome.response ⟨true, Except.ok sampleJson⟩)).2 =
      [requestUrl (jsToUpper ("aapl"))] ∧
    (fullSubmit (fullSubmit ⟨"aapl", false, none, none⟩
        (FetchOutcome.networkFailure ("boom"))).1
        (FetchOutcome.response ⟨true, Except.ok sampleJson⟩)).1 =
      (fullSubmit (fullSubmit ⟨"aapl", false, none, none⟩
        (FetchOutcome.response ⟨true, Except.ok (Json.num 7)⟩)).1
        (FetchOutcome.response ⟨true, Except.ok sampleJson⟩)).1 :=
  c9_sequential_submits ⟨"aapl", false, none, none⟩
    (FetchOutcome.networkFailure ("boom"))
    (FetchOutcome.response ⟨true, Except.ok (Json.num 7)⟩)
    (FetchOutcome.response ⟨true, Except.ok sampleJson⟩) (by decide)

/-- C10 (confirmed): a valid submit while a previous result is held enters
Loading without touching the held result — the previous result panels stay
rendered throughout Loading — and the result is only replaced when the new
request succeeds (by the new parsed body) or cleared when it fails. -/
theorem c10_loading_keeps_result (s : ViewState) (d : Json)
    (r : HttpResponse) (j : Json) (out : FetchOutcome) (e : JsError)
    (hv : jsTrim s.ticker ≠ "") (hd : s.stockData = some d)
    (hok : r.ok = true) (hp : r.bodyParse = Except.ok j)
    (he : getStockAnalysis out = Except.error e) :
    (submitStart s).1.stockData = some d ∧
    (submitStart s).1.loading = true ∧
    (renderView (submitStart s).1).resultPanelsShown = jsTruthy d ∧
    (resolveRequest (submitStart s).1
        (FetchOutcome.response r)).stockData = some j ∧
    (resolveRequest (submitStart s).1 out).stockData = none := by
  have hga : getStockAnalysis (FetchOutcome.response r) = Except.ok j := by
    simp [getStockAnalysis, hok, hp]
  refine ⟨?_, ?_, ?_, ?_, ?_⟩
  · simp [submitStart, hv, hd]
  · simp [submitStart, hv]
  · simp [submitStart, hv, renderView, hd]
  · simp [submitStart, hv, resolveRequest, hga]
  · simp [submitStart, hv, resolveRequest, he]

/-- C10 witness: reloading "aapl" while the sample payload is held keeps
it rendered during Loading; a success with the payload 7 replaces it and
a network failure clears it. -/
theorem c10_loading_keeps_result_witness :
    (submitStart ⟨"aapl", false, none, some sampleJson⟩).1.stockData
      = some sampleJson ∧
    (submitStart ⟨"aapl", false, none, some sampleJson⟩).1.loading
      = true ∧
    (renderView (submitStart ⟨"aapl", false, none,
        some sampleJson⟩).1).resultPanelsShown = jsTruthy sampleJson ∧
    (resolveRequest (submitStart ⟨"aapl", false, none,
        some sampleJson⟩).1
        (FetchOutcome.response ⟨true, Except.ok (Json.num 7)⟩)).stockData
      = some (Json.num 7) ∧
    (resolveRequest (submitStart ⟨"aapl", false, none,
        some sampleJson⟩).1
        (FetchOutcome.networkFailure ("boom"))).stockData = none :=
  c10_loading_keeps_result ⟨"aapl", false, none, some sampleJson⟩
    sampleJson ⟨true, Except.ok (Json.num 7)⟩ (Json.num 7)
    (FetchOutcome.networkFailure ("boom")) ⟨"boom", true⟩
    (by decide) rfl rfl rfl rfl

end StockFundamentals
